import Mathlib

/-!
A shallow embedding of the update pipeline of `github-updater-rust`
(`src/lib.rs` and `src/error.rs`), together with proofs of the behavioural
claims about it.

Modelling conventions:
* Byte strings (file contents, HTTP bodies) are modelled as `String`
  (lists of characters); `len()` is the character count.
* HTTP header values are modelled as already-valid strings, so the
  `HeaderValue::to_str` failure mode is not represented.
* Filesystem operations that can only fail through races or permissions
  (create/write/remove/rename on paths the code has just checked) are
  modelled as total; `read_to_string` keeps its failure mode (a file whose
  bytes are not valid UTF-8), recorded in the `utf8` flag of a file.
* The MD5-plus-base64 digest computed by the `md5`/`base64` crates is
  external code; it is modelled as an uninterpreted function supplied by
  the environment (`Env.md5_base64`).
* Network traffic is supplied by an `Env`: the (optional) response to the
  release-metadata request, its parse as a `Release`, and the (optional)
  response to the asset-content request.
-/

namespace GhUpdater

/-- Model of Rust `str::contains` at the character-list level:
`charsLead pat hay` holds when `pat` is an initial run of `hay`. -/
def charsLead : List Char → List Char → Bool
  | [], _ => true
  | _ :: _, [] => false
  | p :: ps, h :: hs => p == h && charsLead ps hs

/-- `charsContain hay pat` holds when `pat` occurs contiguously in `hay`. -/
def charsContain : List Char → List Char → Bool
  | [], pat => charsLead pat []
  | h :: t, pat => charsLead pat (h :: t) || charsContain t pat

/-- Model of Rust `String::contains(&pattern)`: substring test. -/
def strContains (s pat : String) : Bool :=
  charsContain s.data pat.data

/-- One fuel-indexed step list for Rust `str::replace`: replaces every
non-overlapping occurrence of `pat` left to right; an empty pattern matches
at every character boundary, exactly as in Rust. The fuel is an upper bound
on the number of steps; `length + 1` always suffices. -/
def strReplaceGo : Nat → List Char → List Char → List Char → List Char
  | 0, s, _, _ => s
  | f + 1, s, pat, rep =>
    match pat with
    | [] =>
      match s with
      | [] => rep
      | c :: t => rep ++ c :: strReplaceGo f t [] rep
    | _ :: _ =>
      if charsLead pat s then rep ++ strReplaceGo f (s.drop pat.length) pat rep
      else
        match s with
        | [] => []
        | c :: t => c :: strReplaceGo f t pat rep

/-- Model of Rust `str::replace(pat, rep)`. -/
def strReplace (s pat rep : String) : String :=
  ⟨strReplaceGo (s.data.length + 1) s.data pat.data rep.data⟩

/-- Model of Rust `str::trim` (whitespace restricted to the ASCII
whitespace characters `Char.isWhitespace` recognises). -/
def strTrim (s : String) : String :=
  ⟨((s.data.dropWhile Char.isWhitespace).reverse.dropWhile Char.isWhitespace).reverse⟩

/-- Digit-list accumulator for `str::parse::<usize>`. -/
def parseUsizeGo : List Char → Nat → Option Nat
  | [], acc => some acc
  | c :: t, acc =>
    if c.isDigit then parseUsizeGo t (acc * 10 + (c.toNat - '0'.toNat)) else none

/-- Model of Rust `str::parse::<usize>`: an optional leading `+`, then one
or more decimal digits (overflow is not modelled; `Nat` is unbounded). -/
def parseUsize (s : String) : Option Nat :=
  let l : List Char :=
    match s.data with
    | '+' :: t => t
    | t => t
  if l.isEmpty then none else parseUsizeGo l 0

/-- Model of `Path::join` for the single level of nesting the code uses. -/
def pathJoin (dir name : String) : String :=
  dir ++ "/" ++ name

/-- Embedding of `GithubUpdaterError` (`src/error.rs`). Error payloads that
are opaque foreign error values in Rust (`io::Error`, `reqwest::Error`, …)
are carried as message strings. -/
inductive GithubUpdaterError where
  | BuilderNotInitialized
  | BuilderMissingField (field : String)
  | FetchError (message : String)
  | IoError (message : String)
  | ToStrError (message : String)
  | ParseIntError (message : String)
  | ReqwestError (message : String)
deriving DecidableEq, Repr

/-- One file on disk: its content, and whether that content is valid UTF-8
(`read_to_string` fails on a file whose bytes are not valid UTF-8; files the
updater itself writes always are, since they come from `String`s). -/
structure FSFile where
  content : String
  utf8 : Bool
deriving DecidableEq, Repr

/-- The filesystem fragment the pipeline touches: a finite map from paths
to files (first binding wins) plus the set of directories known to exist. -/
structure FS where
  files : List (String × FSFile)
  dirs : List String
deriving DecidableEq, Repr

def FS.lookup (fs : FS) (p : String) : Option FSFile :=
  fs.files.lookup p

def FS.fileExists (fs : FS) (p : String) : Bool :=
  (fs.lookup p).isSome

/-- `File::create` + `write_all`: create or truncate, then write whole
content (written content comes from a `String`, hence valid UTF-8). -/
def FS.writeFile (fs : FS) (p : String) (content : String) : FS :=
  { fs with files := (p, ⟨content, true⟩) :: fs.files.filter (fun e => !(e.1 == p)) }

/-- `tokio::fs::remove_file` (total model: the code only removes files it
has just observed to exist). -/
def FS.removeFile (fs : FS) (p : String) : FS :=
  { fs with files := fs.files.filter (fun e => !(e.1 == p)) }

/-- `tokio::fs::rename src dst` (total model: the code only renames a file
it has just written). -/
def FS.rename (fs : FS) (src dst : String) : FS :=
  match fs.lookup src with
  | none => fs
  | some f =>
      { fs with
        files := (dst, f) :: (fs.files.filter (fun e => !(e.1 == src) && !(e.1 == dst))) }

/-- `tokio::fs::create_dir_all`. -/
def FS.createDirAll (fs : FS) (p : String) : FS :=
  { fs with dirs := p :: fs.dirs }

def FS.dirExists (fs : FS) (p : String) : Bool :=
  fs.dirs.contains p

/-- `tokio::fs::read_to_string`: fails when the file is missing or its
bytes are not valid UTF-8. -/
def FS.readToString (fs : FS) (p : String) : Except GithubUpdaterError String :=
  match fs.lookup p with
  | none => .error (.IoError "No such file or directory")
  | some f =>
      if f.utf8 then .ok f.content
      else .error (.IoError "stream did not contain valid UTF-8")

/-- `File::open` + `read_to_end`: raw bytes, no UTF-8 requirement. -/
def FS.readBytes (fs : FS) (p : String) : Except GithubUpdaterError String :=
  match fs.lookup p with
  | none => .error (.IoError "No such file or directory")
  | some f => .ok f.content

/-- Embedding of `DownloadInfos` (`src/lib.rs`). -/
structure DownloadInfos where
  previous_version : Option String
  new_version : String
  has_been_updated : Bool
  forced_update : Bool
deriving DecidableEq, Repr

/-- Embedding of the release-asset record the code deserialises
(`struct Asset`: only `url` and `browser_download_url`). -/
structure Asset where
  url : String
  browser_download_url : String
deriving DecidableEq, Repr

/-- Embedding of `struct Release`. -/
structure Release where
  assets : List Asset
  name : String
deriving DecidableEq, Repr

/-- The asset object as it appears on the wire in the GitHub release feed:
it also carries a `name` and an optional `digest`, which the code's
`Asset` deserialisation drops. Used only to state spec-side claims that
speak about asset names and digests. -/
structure AssetJson where
  name : String
  url : String
  browser_download_url : String
  digest : Option String
deriving DecidableEq, Repr

/-- The projection performed by the code's serde deserialisation. -/
def AssetJson.toAsset (a : AssetJson) : Asset :=
  { url := a.url, browser_download_url := a.browser_download_url }

/-- One HTTP response, as far as the pipeline observes it. -/
structure HttpResp where
  status_success : Bool
  status_text : String
  content_md5 : Option String
  content_length : Option String
  body : String
deriving DecidableEq, Repr

/-- The external world of one invocation: the metadata response, its JSON
parse as a `Release`, the asset-content response, and the digest function
of the `md5`/`base64` crates. -/
structure Env where
  meta_resp : Option HttpResp
  meta_json : Option Release
  asset_resp : Option HttpResp
  md5_base64 : String → String

/-- Embedding of `struct GithubUpdater` (the `reqwest_client : Option<Client>`
field is modelled by its presence). -/
structure GithubUpdater where
  reqwest_client : Bool
  built : Bool
  pattern : Option String
  app_name : Option String
  github_token : Option String
  rust_target : Option String
  repository_infos : Option (String × String)
  download_path : Option String
  file_extension : Option String
  erase_previous_file : Bool
  release_url : Option String
  app_version : Option String
  need_refresh : Bool
  forced_update : Bool
deriving DecidableEq, Repr

namespace GithubUpdater

/-- `GithubUpdater::builder()`. -/
def builder : GithubUpdater :=
  { reqwest_client := false
    built := false
    pattern := none
    app_name := none
    github_token := none
    rust_target := none
    repository_infos := none
    download_path := none
    file_extension := none
    erase_previous_file := true
    release_url := none
    app_version := none
    need_refresh := true
    forced_update := true }

def with_reqwest_client (s : GithubUpdater) : GithubUpdater :=
  { s with reqwest_client := true }

def with_release_file_name_pattern (s : GithubUpdater) (pat : String) : GithubUpdater :=
  { s with pattern := some pat }

def with_app_name (s : GithubUpdater) (app_name : String) : GithubUpdater :=
  { s with app_name := some app_name }

def with_github_token (s : GithubUpdater) (github_token : String) : GithubUpdater :=
  { s with github_token := some github_token }

def with_rust_target (s : GithubUpdater) (rust_target : String) : GithubUpdater :=
  { s with rust_target := some rust_target }

def with_repository_infos (s : GithubUpdater) (owner name : String) : GithubUpdater :=
  { s with repository_infos := some (owner, name) }

def with_download_path (s : GithubUpdater) (path : String) : GithubUpdater :=
  { s with download_path := some path }

def with_file_extension (s : GithubUpdater) (ext : String) : GithubUpdater :=
  { s with file_extension := some ext }

def without_erase_previous_file (s : GithubUpdater) : GithubUpdater :=
  { s with erase_previous_file := false }

/-- `GithubUpdater::build`. -/
def build (s : GithubUpdater) : Except GithubUpdaterError GithubUpdater :=
  if s.reqwest_client = false then .error (.BuilderMissingField "reqwest_client")
  else if s.app_name.isNone then .error (.BuilderMissingField "app_name")
  else
    match s.pattern with
    | some pat =>
        if strContains pat "rust_target" && s.rust_target.isNone then
          .error (.BuilderMissingField "rust_target")
        else if s.repository_infos.isNone then .error (.BuilderMissingField "repository_infos")
        else if s.download_path.isNone then .error (.BuilderMissingField "download_path")
        else .ok { s with built := true }
    | none => .error (.BuilderMissingField "pattern")

/-- `GithubUpdater::generate_file_name`. -/
def generate_file_name (s : GithubUpdater) (app_name : String) : String :=
  let extension : String :=
    match s.file_extension with
    | some ext => "." ++ ext
    | none => ""
  app_name ++ extension

/-- `GithubUpdater::get_current_version`. -/
def get_current_version (app_name path : String) (fs : FS) :
    Except GithubUpdaterError (Option String) :=
  let path_version_file := pathJoin path ("binary-version-" ++ app_name ++ ".txt")
  if fs.fileExists path_version_file then (fs.readToString path_version_file).map some
  else .ok none

/-- `GithubUpdater::send_request` (the `resp` argument is the outcome of
the transport for this request: `none` is a transport failure). -/
def send_request (s : GithubUpdater) (url : String) (resp : Option HttpResp) :
    Except GithubUpdaterError HttpResp :=
  if s.reqwest_client = false then .error .BuilderNotInitialized
  else
    match resp with
    | none => .error (.ReqwestError ("error sending request for url (" ++ url ++ ")"))
    | some r =>
        if r.status_success = false then
          .error (.FetchError
            ("An error occurred while downloading the file, HTTP code: " ++ r.status_text))
        else .ok r

/-- `GithubUpdater::fetch_last_release`. On an early error the state
mutations already performed persist (the Rust method takes `&mut self`), so
the updated state is returned alongside the outcome. -/
def fetch_last_release (env : Env) (s : GithubUpdater) :
    Except GithubUpdaterError Unit × GithubUpdater :=
  if s.built = false then (.error .BuilderNotInitialized, s)
  else
    match s.repository_infos with
    | none => (.error .BuilderNotInitialized, s)
    | some repo =>
      let url : String :=
        "https://api.github.com/repos/" ++ repo.1 ++ "/" ++ repo.2 ++ "/releases/latest"
      match send_request s url env.meta_resp with
      | .error e => (.error e, s)
      | .ok _resp =>
        match env.meta_json with
        | none => (.error (.ReqwestError "error decoding response body"), s)
        | some release =>
          let asset_urls : List String := release.assets.map (·.browser_download_url)
          match s.pattern with
          | none => (.error .BuilderNotInitialized, s)
          | some pat0 =>
            let pat1 := strReplace pat0 "{app_version}" release.name
            let pat2 :=
              match s.app_name with
              | some app_name => strReplace pat1 "{app_name}" app_name
              | none => pat1
            let pat3 :=
              match s.rust_target with
              | some rust_target => strReplace pat2 "{rust_target}" rust_target
              | none => pat2
            let s1 := { s with app_version := some release.name }
            match asset_urls.find? (fun v => strContains v pat3) with
            | none =>
                (.error (.FetchError "No URL matching the pattern entered was found."), s1)
            | some matching_value =>
              match
                (release.assets.find?
                  (fun a => a.browser_download_url == matching_value)).map (·.url) with
              | none =>
                  (.error (.FetchError "Unable to find the URL of the requested release."), s1)
              | some api_url => (.ok (), { s1 with release_url := some api_url })

/-- `GithubUpdater::check_if_update_is_needed`. -/
def check_if_update_is_needed (s : GithubUpdater) (fs : FS) :
    Except GithubUpdaterError Bool :=
  if s.built = false then .error .BuilderNotInitialized
  else
    match s.download_path with
    | none => .error .BuilderNotInitialized
    | some path =>
      match s.app_version with
      | none => .error .BuilderNotInitialized
      | some current_version =>
        match s.app_name with
        | none => .error .BuilderNotInitialized
        | some app_name =>
          let path_version_file := pathJoin path ("binary-version-" ++ app_name ++ ".txt")
          if !(fs.fileExists path_version_file)
              || !(fs.fileExists (pathJoin path (s.generate_file_name app_name))) then
            .ok true
          else
            match fs.readToString path_version_file with
            | .error e => .error e
            | .ok previous_version => .ok (strTrim previous_version != current_version)

/-- The conditional refresh at the head of `force_update`:
`if self.need_refresh { self.fetch_last_release().await?; }`. -/
def refresh_step (env : Env) (s : GithubUpdater) :
    Except GithubUpdaterError Unit × GithubUpdater :=
  if s.need_refresh then fetch_last_release env s else (.ok (), s)

/-- `GithubUpdater::force_update`. Returns the outcome together with the
final updater state and filesystem (both of which persist on error). -/
def force_update (env : Env) (s : GithubUpdater) (fs : FS) :
    Except GithubUpdaterError DownloadInfos × GithubUpdater × FS :=
  if s.built = false then (.error .BuilderNotInitialized, s, fs)
  else
    match refresh_step env s with
    | (.error e, s1) => (.error e, s1, fs)
    | (.ok _, s1) =>
      match s1.app_name with
      | none => (.error .BuilderNotInitialized, s1, fs)
      | some app_name =>
        match s1.download_path with
        | none => (.error .BuilderNotInitialized, s1, fs)
        | some path =>
          let file_name := s1.generate_file_name app_name
          let previous_file := pathJoin path file_name
          let new_file :=
            if fs.fileExists previous_file then pathJoin path ("new_" ++ file_name)
            else previous_file
          match s1.release_url with
          | none =>
              (.error (.FetchError "Unable to find the URL of the requested release."), s1, fs)
          | some release_url =>
            match get_current_version app_name path fs with
            | .error e => (.error e, s1, fs)
            | .ok previous_version =>
              match s1.app_version with
              | none => (.error .BuilderNotInitialized, s1, fs)
              | some new_version =>
                let fs1 := if !(fs.dirExists path) then fs.createDirAll path else fs
                let fs2 := if fs1.fileExists new_file then fs1.removeFile new_file else fs1
                match send_request s1 release_url env.asset_resp with
                | .error e => (.error e, s1, fs2)
                | .ok resp =>
                  let github_md5 := resp.content_md5
                  match resp.content_length with
                  | none =>
                      (.error (.FetchError "The content-length header is absent."), s1, fs2)
                  | some cl_str =>
                    match parseUsize cl_str with
                    | none => (.error (.ParseIntError "invalid digit found in string"), s1, fs2)
                    | some content_length =>
                      let body := resp.body
                      let fs3 := fs2.writeFile new_file body
                      let md5_step : Except GithubUpdaterError (Option String) :=
                        match github_md5 with
                        | some _ =>
                          match fs3.readBytes new_file with
                          | .error e => .error e
                          | .ok content => .ok (some (env.md5_base64 content))
                        | none => .ok none
                      match md5_step with
                      | .error e => (.error e, s1, fs3)
                      | .ok file_md5 =>
                        if github_md5 != file_md5 || content_length != body.length then
                          let fs4 := fs3.removeFile new_file
                          (.error (.FetchError
                            (if github_md5 == file_md5 then
                              "File corrupted: Incorrect file size detected."
                            else "File corrupted: MD5 checksum does not match.")), s1, fs4)
                        else
                          let fs5 :=
                            if s1.erase_previous_file && previous_file != new_file then
                              (fs3.removeFile previous_file).rename new_file previous_file
                            else fs3
                          let fs6 :=
                            fs5.writeFile
                              (pathJoin path ("binary-version-" ++ app_name ++ ".txt"))
                              new_version
                          let forced := s1.forced_update
                          (.ok
                            { previous_version := previous_version
                              new_version := new_version
                              has_been_updated := true
                              forced_update := forced },
                            { s1 with forced_update := true }, fs6)

/-- `GithubUpdater::update_if_needed`. -/
def update_if_needed (env : Env) (s : GithubUpdater) (fs : FS) :
    Except GithubUpdaterError DownloadInfos × GithubUpdater × FS :=
  if s.built = false then (.error .BuilderNotInitialized, s, fs)
  else
    match fetch_last_release env s with
    | (.error e, s1) => (.error e, s1, fs)
    | (.ok _, s1) =>
      let s2 := { s1 with need_refresh := false }
      let needed : Bool :=
        match check_if_update_is_needed s2 fs with
        | .ok b => b
        | .error _ => false
      if needed then force_update env { s2 with forced_update := false } fs
      else
        match s2.download_path with
        | none => (.error .BuilderNotInitialized, s2, fs)
        | some path =>
          match s2.app_name with
          | none => (.error .BuilderNotInitialized, s2, fs)
          | some app_name =>
            match get_current_version app_name path fs with
            | .error e => (.error e, s2, fs)
            | .ok current_version =>
              (.ok
                { previous_version := current_version
                  new_version := current_version.getD ""
                  has_been_updated := false
                  forced_update := false }, s2, fs)

end GithubUpdater

deriving instance DecidableEq for Except

/-! ### Spec-side definitions (used only to state claims against the spec's
own words, for comparison with the code's behaviour) -/

/-- Modelled from the spec: the up-to-date decision as the spec words it —
"only when both comparisons agree that nothing changed (or the asset
provides no digest to compare, in which case version alone governs)":
compares the installed artifact's digest against the asset's digest when
both exist, and the recorded version against the release version. Returns
`true` when the spec says the engine may short-circuit to up-to-date. -/
def spec_up_to_date (installed_digest asset_digest : Option String)
    (recorded_version release_version : String) : Bool :=
  match asset_digest, installed_digest with
  | some ad, some idg => (recorded_version == release_version) && (idg == ad)
  | _, _ => recorded_version == release_version

/-- Modelled from the spec: asset selection as the spec words it — "selects
the first asset (by the order the release feed returns them) whose name
contains the resulting substring". -/
def spec_select_asset_by_name (assets : List AssetJson) (pat : String) : Option AssetJson :=
  assets.find? (fun a => strContains a.name pat)

/-! ### Concrete fixtures for witnesses and counterexamples -/

/-- A concrete, computable stand-in for the base64-encoded MD5 digest. -/
def md5_model : String → String := fun s => "b64md5:" ++ s

/-- The empty filesystem. -/
def fs0 : FS := ⟨[], []⟩

/-- A filesystem holding an installed artifact `d/tool` (content `OLD`) and
its version sidecar recording `1.0`. -/
def fsPrev : FS :=
  ⟨[("d/tool", ⟨"OLD", true⟩), ("d/binary-version-tool.txt", ⟨"1.0", true⟩)], ["d"]⟩

/-- Like `fsPrev` but the sidecar bytes are not valid UTF-8, so reading it
fails. -/
def fsBadVf : FS :=
  ⟨[("d/tool", ⟨"OLD", true⟩), ("d/binary-version-tool.txt", ⟨"1.0", false⟩)], ["d"]⟩

/-- A filesystem holding only the version sidecar (recording `2.0`), with
no installed artifact. -/
def fsOnlyVf : FS := ⟨[("d/binary-version-tool.txt", ⟨"2.0", true⟩)], ["d"]⟩

/-- A fully configured updater state (as after `build()` and one earlier
successful `update_if_needed`, which cleared `need_refresh` and stored a
release URL and version). -/
def sBase : GithubUpdater :=
  { reqwest_client := true
    built := true
    pattern := some "{app_name}-{app_version}"
    app_name := some "tool"
    github_token := none
    rust_target := none
    repository_infos := some ("own", "repo")
    download_path := some "d"
    file_extension := none
    erase_previous_file := true
    release_url := some "u"
    app_version := some "2.0"
    need_refresh := false
    forced_update := true }

/-- `sBase` with the refresh flag still set (as right after `build()`). -/
def sNR : GithubUpdater := { sBase with need_refresh := true }

/-- `sBase` with the erase-previous-file policy disabled. -/
def sC8 : GithubUpdater := { sBase with erase_previous_file := false }

/-- `sBase` with a rust target configured. -/
def sC5 : GithubUpdater := { sBase with rust_target := some "x86_64-linux" }

/-- A successful but digest-less asset response: 3 declared bytes, body
`abc`. -/
def respOk3 : HttpResp :=
  { status_success := true, status_text := "200 OK", content_md5 := none,
    content_length := some "3", body := "abc" }

/-- An asset response whose transferred size does not match the declared
`content-length`. -/
def respShort : HttpResp :=
  { status_success := true, status_text := "200 OK", content_md5 := none,
    content_length := some "3", body := "abcd" }

/-- An asset response lacking the `content-length` header. -/
def respNoLength : HttpResp :=
  { status_success := true, status_text := "200 OK", content_md5 := none,
    content_length := none, body := "abc" }

/-- An asset response carrying a matching `content-md5` digest. -/
def respWithMd5 : HttpResp :=
  { status_success := true, status_text := "200 OK",
    content_md5 := some (md5_model "abc"), content_length := some "3", body := "abc" }

/-- An asset response with a wrong declared length. -/
def respBadLength : HttpResp :=
  { status_success := true, status_text := "200 OK", content_md5 := none,
    content_length := some "9", body := "abc" }

/-- A 4-byte digest-less response, used for the no-erase scenario. -/
def respNew4 : HttpResp :=
  { status_success := true, status_text := "200 OK", content_md5 := none,
    content_length := some "4", body := "NEW!" }

/-- A successful release-metadata HTTP response (its JSON parse is supplied
separately as `Env.meta_json`). -/
def metaRespOk : HttpResp :=
  { status_success := true, status_text := "200 OK", content_md5 := none,
    content_length := none, body := "json" }

/-- A release whose only asset URL matches `tool-2.0`. -/
def relW : Release :=
  { assets := [{ url := "api-1", browser_download_url := "https://h/tool-2.0/tool.bin" }],
    name := "2.0" }

/-- Wire assets for the digest-comparison scenario: the asset carries a
digest (of content `NEW`) that the code's deserialisation drops. -/
def wireC2 : List AssetJson :=
  [{ name := "tool-1.0.bin", url := "api-1",
     browser_download_url := "https://h/tool-1.0/tool-1.0.bin",
     digest := some (md5_model "NEW") }]

/-- The release the code sees for the digest-comparison scenario. -/
def relC2 : Release := { assets := wireC2.map AssetJson.toAsset, name := "1.0" }

/-- Wire assets for the name-versus-URL selection scenario: no asset NAME
contains the substituted pattern, but the first asset's browser download
URL does. -/
def wireC5 : List AssetJson :=
  [{ name := "readme.md", url := "api-1",
     browser_download_url := "https://h/tool-1.0/readme.md", digest := none }]

/-- The release the code sees for the name-versus-URL selection scenario. -/
def relC5 : Release := { assets := wireC5.map AssetJson.toAsset, name := "1.0" }

/-- A release with a non-matching first asset and a matching second one. -/
def relC5W : Release :=
  { assets := [{ url := "api-0", browser_download_url := "https://h/other/x.bin" },
               { url := "api-1", browser_download_url := "https://h/tool-1.0/y.bin" }],
    name := "1.0" }

/-- A release none of whose asset URLs match the pattern. -/
def relC5A : Release :=
  { assets := [{ url := "api-0", browser_download_url := "https://h/other/x.bin" }],
    name := "1.0" }

/-- Metadata endpoint unreachable; asset endpoint serves `respOk3`. -/
def envAssetOk : Env :=
  { meta_resp := none, meta_json := none, asset_resp := some respOk3,
    md5_base64 := md5_model }

/-- Metadata endpoint unreachable; asset endpoint serves `respShort`. -/
def envShort : Env :=
  { meta_resp := none, meta_json := none, asset_resp := some respShort,
    md5_base64 := md5_model }

/-- Metadata endpoint unreachable; asset endpoint lacks `content-length`. -/
def envNoLength : Env :=
  { meta_resp := none, meta_json := none, asset_resp := some respNoLength,
    md5_base64 := md5_model }

/-- Metadata endpoint unreachable; asset endpoint carries a matching
digest. -/
def envWithMd5 : Env :=
  { meta_resp := none, meta_json := none, asset_resp := some respWithMd5,
    md5_base64 := md5_model }

/-- Metadata endpoint unreachable; asset endpoint declares a wrong
length. -/
def envBadLength : Env :=
  { meta_resp := none, meta_json := none, asset_resp := some respBadLength,
    md5_base64 := md5_model }

/-- Same asset endpoint as `envAssetOk`, but a different digest function:
used to show the outcome does not depend on the digest function when no
digest is supplied. -/
def envAltHash : Env :=
  { meta_resp := none, meta_json := none, asset_resp := some respOk3,
    md5_base64 := fun s => s }

/-- Metadata endpoint unreachable; asset endpoint serves `respNew4`. -/
def envNew4 : Env :=
  { meta_resp := none, meta_json := none, asset_resp := some respNew4,
    md5_base64 := md5_model }

/-- Working metadata endpoint serving `relW`, working asset endpoint. -/
def envFull : Env :=
  { meta_resp := some metaRespOk, meta_json := some relW, asset_resp := some respOk3,
    md5_base64 := md5_model }

/-- Working metadata endpoint serving `relC2`. -/
def envC2 : Env :=
  { meta_resp := some metaRespOk, meta_json := some relC2, asset_resp := some respOk3,
    md5_base64 := md5_model }

/-- Working metadata endpoint serving `relC5`. -/
def envC5 : Env :=
  { meta_resp := some metaRespOk, meta_json := some relC5, asset_resp := none,
    md5_base64 := md5_model }

/-- Working metadata endpoint serving `relC5W`. -/
def envC5W : Env :=
  { meta_resp := some metaRespOk, meta_json := some relC5W, asset_resp := none,
    md5_base64 := md5_model }

/-- Working metadata endpoint serving `relC5A`. -/
def envC5A : Env :=
  { meta_resp := some metaRespOk, meta_json := some relC5A, asset_resp := none,
    md5_base64 := md5_model }

/-- The state `fetch_last_release` produces from `sBase` against `envFull`
(release `relW`): version `2.0`, release URL `api-1`. -/
def s1W : GithubUpdater :=
  { sBase with app_version := some "2.0", release_url := some "api-1" }

/-- The state `fetch_last_release` produces from `sBase` against `envC2`
(release `relC2`): version `1.0`, release URL `api-1`. -/
def s1C2 : GithubUpdater :=
  { sBase with app_version := some "1.0", release_url := some "api-1" }

/-! ### Basic lemmas about the filesystem model -/

theorem lookup_filter_ne (l : List (String × FSFile)) (p q : String) (h : q ≠ p) :
    (l.filter (fun e => !(e.1 == p))).lookup q = l.lookup q := by
  induction l with
  | nil => rfl
  | cons hd tl ih =>
    obtain ⟨k, v⟩ := hd
    rw [List.filter_cons]
    by_cases hp : k = p
    · rw [if_neg (by simp [hp])]
      rw [ih, List.lookup_cons]
      have hq : (q == k) = false := by simp [hp, h]
      simp [hq]
    · rw [if_pos (by simp [hp])]
      rw [List.lookup_cons, List.lookup_cons]
      by_cases hq : q = k
      · simp [hq]
      · have hq' : (q == k) = false := by simp [hq]
        simp [hq', ih]

theorem lookup_filter_self (l : List (String × FSFile)) (p : String) :
    (l.filter (fun e => !(e.1 == p))).lookup p = none := by
  induction l with
  | nil => rfl
  | cons hd tl ih =>
    obtain ⟨k, v⟩ := hd
    rw [List.filter_cons]
    by_cases hp : k = p
    · rw [if_neg (by simp [hp])]
      exact ih
    · rw [if_pos (by simp [hp])]
      rw [List.lookup_cons]
      have hq : (p == k) = false := by
        simp only [beq_eq_false_iff_ne, ne_eq]
        exact fun hc => hp hc.symm
      simp [hq, ih]

theorem FS.lookup_writeFile_self (fs : FS) (p c : String) :
    (fs.writeFile p c).lookup p = some ⟨c, true⟩ := by
  simp [FS.writeFile, FS.lookup, List.lookup_cons]

theorem FS.lookup_writeFile_ne (fs : FS) (p c q : String) (h : q ≠ p) :
    (fs.writeFile p c).lookup q = fs.lookup q := by
  have hq : (q == p) = false := by simp [h]
  simp [FS.writeFile, FS.lookup, List.lookup_cons, hq]
  exact lookup_filter_ne fs.files p q h

theorem FS.lookup_removeFile_self (fs : FS) (p : String) :
    (fs.removeFile p).lookup p = none :=
  lookup_filter_self fs.files p

theorem FS.lookup_removeFile_ne (fs : FS) (p q : String) (h : q ≠ p) :
    (fs.removeFile p).lookup q = fs.lookup q :=
  lookup_filter_ne fs.files p q h

theorem FS.lookup_createDirAll (fs : FS) (d q : String) :
    (fs.createDirAll d).lookup q = fs.lookup q := rfl

theorem lookup_removeFile_cases (fs : FS) (x q : String) :
    (fs.removeFile x).lookup q = fs.lookup q ∨ (fs.removeFile x).lookup q = none := by
  by_cases h : q = x
  · right; rw [h]; exact FS.lookup_removeFile_self fs x
  · left; exact FS.lookup_removeFile_ne fs x q h

theorem lookup_if_remove (fs1 fs : FS) (nf : String)
    (hbase : ∀ q : String, fs1.lookup q = fs.lookup q) (p : String) :
    ((if fs1.fileExists nf then fs1.removeFile nf else fs1)).lookup p = fs.lookup p ∨
    ((if fs1.fileExists nf then fs1.removeFile nf else fs1)).lookup p = none := by
  split
  · rcases lookup_removeFile_cases fs1 nf p with h | h
    · left; rw [h, hbase p]
    · right; exact h
  · left; exact hbase p

theorem lookup_if_remove_ne (fs1 : FS) (nf p : String) (hp : p ≠ nf) :
    ((if fs1.fileExists nf then fs1.removeFile nf else fs1)).lookup p = fs1.lookup p := by
  split
  · exact FS.lookup_removeFile_ne fs1 nf p hp
  · rfl

theorem lookup_dir_base (fs : FS) (path : String) :
    ∀ q : String,
      ((if !(fs.dirExists path) then fs.createDirAll path else fs)).lookup q = fs.lookup q := by
  intro q
  split
  · exact FS.lookup_createDirAll fs path q
  · rfl

theorem FS.readBytes_writeFile_self (fs : FS) (p c : String) :
    (fs.writeFile p c).readBytes p = .ok c := by
  unfold FS.readBytes
  rw [FS.lookup_writeFile_self]

/-! ### Distinctness of the three file names the pipeline touches -/

theorem str_append_cancel_left (p a b : String) (h : p ++ a = p ++ b) : a = b := by
  have hd := congrArg String.data h
  simp only [String.data_append] at hd
  exact String.ext (List.append_cancel_left hd)

theorem pathJoin_inj (d a b : String) (h : pathJoin d a = pathJoin d b) : a = b :=
  str_append_cancel_left (d ++ "/") a b h

theorem pathJoin_ne (d a b : String) (h : a ≠ b) : pathJoin d a ≠ pathJoin d b :=
  fun hc => h (pathJoin_inj d a b hc)

theorem new_name_ne (f : String) : ("new_" ++ f) ≠ f := by
  intro h
  have hlen := congrArg String.length h
  simp only [String.length_append] at hlen
  have h4 : ("new_" : String).length = 4 := by decide
  omega

/-- Key combinatorial step: no list `A` satisfies
`"binary-version-" ++ (A ++ w) = A ++ '.' :: v`, because the character at
position `|A|` would have to be both `'.'` and a character of the periodic
extension of `"binary-version-"`, which contains no dot. -/
theorem no_dot_aux (n : Nat) :
    ∀ (A v w : List Char), A.length = n →
      ("binary-version-".data ++ (A ++ w) = A ++ '.' :: v) → False := by
  induction n using Nat.strong_induction_on with
  | _ n ih =>
    intro A v w hlen heq
    by_cases hA : A.length < ("binary-version-".data).length
    · have hr : (A ++ '.' :: v)[A.length]? = some '.' := by
        rw [List.getElem?_append_right (Nat.le_refl _)]
        simp
      have hl : ("binary-version-".data ++ (A ++ w))[A.length]? =
          ("binary-version-".data)[A.length]? := by
        rw [List.getElem?_append, if_pos hA]
      rw [heq, hr] at hl
      have hmem : '.' ∈ ("binary-version-".data) := List.getElem?_mem hl.symm
      have : ∀ c ∈ ("binary-version-" : String).data, c ≠ '.' := by decide
      exact this '.' hmem rfl
    · push_neg at hA
      have hP : ("binary-version-".data).length = 15 := by decide
      have htake : "binary-version-".data = A.take ("binary-version-".data).length := by
        have h1 : ("binary-version-".data ++ (A ++ w)).take ("binary-version-".data).length =
            "binary-version-".data := List.take_left ..
        have h2 : (A ++ '.' :: v).take ("binary-version-".data).length =
            A.take ("binary-version-".data).length ++
              ('.' :: v).take (("binary-version-".data).length - A.length) := by
          exact List.take_append_eq_append_take
        have h3 : ("binary-version-".data).length - A.length = 0 := by omega
        rw [heq, h2, h3] at h1
        simpa using h1.symm
      have hsplit : A = "binary-version-".data ++ A.drop ("binary-version-".data).length := by
        conv_lhs => rw [← List.take_append_drop ("binary-version-".data).length A]
        rw [← htake]
      set A' := A.drop ("binary-version-".data).length with hA'
      have heq' : "binary-version-".data ++ (A' ++ w) = A' ++ '.' :: v := by
        have : "binary-version-".data ++
            (("binary-version-".data ++ A') ++ w) =
            ("binary-version-".data ++ A') ++ '.' :: v := by
          rw [← hsplit]; exact heq
        have h4 : "binary-version-".data ++ ("binary-version-".data ++ (A' ++ w)) =
            "binary-version-".data ++ (A' ++ '.' :: v) := by
          simpa [List.append_assoc] using this
        exact List.append_cancel_left h4
      have hlt : A'.length < n := by
        have : A'.length = A.length - ("binary-version-".data).length := by
          rw [hA']; simp
        omega
      exact ih A'.length hlt A' v w rfl heq'

/-- The version-sidecar file name is never equal to the artifact file name,
for any application name and any extension of the form `""` or `"." ++ e`. -/
theorem version_name_ne_file_name (a ext_part : String)
    (hshape : ext_part = "" ∨ ∃ e : String, ext_part = "." ++ e) :
    ("binary-version-" ++ a ++ ".txt") ≠ (a ++ ext_part) := by
  intro heq
  rcases hshape with h0 | ⟨e, he⟩
  · rw [h0] at heq
    have := congrArg String.length heq
    simp only [String.length_append] at this
    have h15 : ("binary-version-" : String).length = 15 := by decide
    have h4 : (".txt" : String).length = 4 := by decide
    have h0' : ("" : String).length = 0 := by decide
    omega
  · rw [he] at heq
    apply no_dot_aux a.data.length a.data e.data ".txt".data rfl
    have hd : ("binary-version-" ++ a ++ ".txt").data = (a ++ ("." ++ e)).data :=
      congrArg String.data heq
    calc "binary-version-".data ++ (a.data ++ ".txt".data)
        = ("binary-version-" ++ a ++ ".txt").data := by
          simp only [String.data_append, List.append_assoc]
      _ = (a ++ ("." ++ e)).data := hd
      _ = a.data ++ '.' :: e.data := by
          simp only [String.data_append]
          rfl

/-- The version-sidecar file name never equals a staging (`new_`-pre-pended)
file name: the first characters differ. -/
theorem version_name_ne_new_name (a f : String) :
    ("binary-version-" ++ a ++ ".txt") ≠ ("new_" ++ f) := by
  intro heq
  have hd : (("binary-version-" ++ a ++ ".txt").data.head? : Option Char) =
      ("new_" ++ f).data.head? := congrArg (fun t => t.data.head?) heq
  have hb : ("binary-version-" ++ a ++ ".txt").data.head? = some 'b' := rfl
  have hn : ("new_" ++ f).data.head? = some 'n' := rfl
  rw [hb, hn] at hd
  simp at hd

/-- Specialisation: the three paths used by the pipeline are distinct. -/
theorem artifact_path_ne_version_path (path a ext_part : String)
    (hshape : ext_part = "" ∨ ∃ e : String, ext_part = "." ++ e) :
    pathJoin path (a ++ ext_part) ≠ pathJoin path ("binary-version-" ++ a ++ ".txt") := by
  apply pathJoin_ne
  intro h
  exact version_name_ne_file_name a ext_part hshape h.symm

theorem staging_path_ne_artifact_path (path f : String) :
    pathJoin path ("new_" ++ f) ≠ pathJoin path f :=
  pathJoin_ne path _ _ (new_name_ne f)

theorem staging_path_ne_version_path (path a f : String) :
    pathJoin path ("new_" ++ f) ≠ pathJoin path ("binary-version-" ++ a ++ ".txt") := by
  apply pathJoin_ne
  intro h
  exact version_name_ne_new_name a f h.symm

/-- The extension part of `generate_file_name` always has the shape the
distinctness lemmas need. -/
theorem generate_file_name_shape (s : GithubUpdater) (an : String) :
    s.generate_file_name an = an ++ "" ∨
      ∃ e : String, s.generate_file_name an = an ++ ("." ++ e) := by
  unfold GithubUpdater.generate_file_name
  cases s.file_extension with
  | none => exact Or.inl rfl
  | some ext => exact Or.inr ⟨ext, rfl⟩

/-! ### Claim theorems -/

open GithubUpdater in
/-- C1: on any verification failure after the download (size mismatch or
digest mismatch), `force_update` deletes the file it wrote at the
destination path before returning a corruption error, and every other file
-- in particular the previously installed artifact, when one existed -- is
untouched by the failed invocation. -/
theorem force_update_verification_failure_cleans_and_preserves
    (env : Env) (s s1 : GithubUpdater) (fs : FS)
    (app_name path release_url new_version cl_str file_name previous_file new_file : String)
    (previous_version : Option String) (n : Nat) (resp : HttpResp)
    (hbuilt : s.built = true)
    (href : refresh_step env s = (.ok (), s1))
    (han : s1.app_name = some app_name)
    (hpath : s1.download_path = some path)
    (hurl : s1.release_url = some release_url)
    (hver : s1.app_version = some new_version)
    (hclient : s1.reqwest_client = true)
    (hgcv : get_current_version app_name path fs = .ok previous_version)
    (hresp : env.asset_resp = some resp)
    (hstatus : resp.status_success = true)
    (hcl : resp.content_length = some cl_str)
    (hn : parseUsize cl_str = some n)
    (hfn : file_name = s1.generate_file_name app_name)
    (hpf : previous_file = pathJoin path file_name)
    (hnf : new_file =
      (if fs.fileExists previous_file then pathJoin path ("new_" ++ file_name)
       else previous_file))
    (hfail : resp.content_md5 ≠ resp.content_md5.map (fun _ => env.md5_base64 resp.body) ∨
      n ≠ resp.body.length) :
    ((force_update env s fs).1 =
        .error (.FetchError "File corrupted: Incorrect file size detected.") ∨
      (force_update env s fs).1 =
        .error (.FetchError "File corrupted: MD5 checksum does not match.")) ∧
    (force_update env s fs).2.2.lookup new_file = none ∧
    (∀ p : String, p ≠ new_file → (force_update env s fs).2.2.lookup p = fs.lookup p) ∧
    (fs.fileExists previous_file = true →
      (force_update env s fs).2.2.lookup previous_file = fs.lookup previous_file) := by
  subst hfn hpf hnf
  have hsr : send_request s1 release_url env.asset_resp = .ok resp := by
    simp [send_request, hclient, hresp, hstatus]
  have hprev4 :
      (∀ p : String,
          p ≠ (if fs.fileExists (pathJoin path (s1.generate_file_name app_name))
            then pathJoin path ("new_" ++ s1.generate_file_name app_name)
            else pathJoin path (s1.generate_file_name app_name)) →
          (force_update env s fs).2.2.lookup p = fs.lookup p) →
      fs.fileExists (pathJoin path (s1.generate_file_name app_name)) = true →
      (force_update env s fs).2.2.lookup (pathJoin path (s1.generate_file_name app_name)) =
        fs.lookup (pathJoin path (s1.generate_file_name app_name)) := by
    intro h3 hprev
    apply h3
    rw [if_pos hprev]
    exact (staging_path_ne_artifact_path path (s1.generate_file_name app_name)).symm
  rcases hmd : resp.content_md5 with _ | g
  · -- no digest header: the failure must be the size mismatch
    have hlen : n ≠ resp.body.length := by
      rcases hfail with hmdne | hlen
      · rw [hmd] at hmdne; simp at hmdne
      · exact hlen
    have hc : ((none : Option String) != (none : Option String) ||
        n != resp.body.length) = true := by
      simp [bne_iff_ne, hlen]
    have h3 : ∀ p : String,
        p ≠ (if fs.fileExists (pathJoin path (s1.generate_file_name app_name))
          then pathJoin path ("new_" ++ s1.generate_file_name app_name)
          else pathJoin path (s1.generate_file_name app_name)) →
        (force_update env s fs).2.2.lookup p = fs.lookup p := by
      intro p hp
      simp only [force_update, hbuilt, href, han, hpath, hurl, hver, hgcv, hsr, hcl, hn, hmd,
        hc, Bool.true_eq_false, if_false, if_true]
      rw [FS.lookup_removeFile_ne _ _ _ hp, FS.lookup_writeFile_ne _ _ _ _ hp,
        lookup_if_remove_ne _ _ _ hp]
      exact lookup_dir_base fs path p
    refine ⟨?_, ?_, h3, hprev4 h3⟩
    · left
      simp only [force_update, hbuilt, href, han, hpath, hurl, hver, hgcv, hsr, hcl, hn, hmd,
        hc, Bool.true_eq_false, if_false, eq_self_iff_true, if_true, beq_self_eq_true]
    · simp only [force_update, hbuilt, href, han, hpath, hurl, hver, hgcv, hsr, hcl, hn, hmd,
        hc, Bool.true_eq_false, if_false, if_true]
      exact FS.lookup_removeFile_self _ _
  · -- digest header present
    have hc : ((some g : Option String) != some (env.md5_base64 resp.body) ||
        n != resp.body.length) = true := by
      rcases hfail with hmdne | hlen
      · rw [hmd] at hmdne
        have hgne : g ≠ env.md5_base64 resp.body := by simpa using hmdne
        simp [bne_iff_ne, hgne]
      · simp [bne_iff_ne, hlen]
    have h3 : ∀ p : String,
        p ≠ (if fs.fileExists (pathJoin path (s1.generate_file_name app_name))
          then pathJoin path ("new_" ++ s1.generate_file_name app_name)
          else pathJoin path (s1.generate_file_name app_name)) →
        (force_update env s fs).2.2.lookup p = fs.lookup p := by
      intro p hp
      simp only [force_update, hbuilt, href, han, hpath, hurl, hver, hgcv, hsr, hcl, hn, hmd,
        hc, FS.readBytes_writeFile_self, Bool.true_eq_false, if_false, if_true]
      rw [FS.lookup_removeFile_ne _ _ _ hp, FS.lookup_writeFile_ne _ _ _ _ hp,
        lookup_if_remove_ne _ _ _ hp]
      exact lookup_dir_base fs path p
    refine ⟨?_, ?_, h3, hprev4 h3⟩
    · by_cases hgb : g = env.md5_base64 resp.body
      · left
        subst hgb
        simp only [force_update, hbuilt, href, han, hpath, hurl, hver, hgcv, hsr, hcl, hn, hmd,
          hc, FS.readBytes_writeFile_self, Bool.true_eq_false, if_false, eq_self_iff_true,
          if_true, beq_self_eq_true]
      · right
        have hbeq : ((some g : Option String) == some (env.md5_base64 resp.body)) = false := by
          simp [hgb]
        simp only [force_update, hbuilt, href, han, hpath, hurl, hver, hgcv, hsr, hcl, hn, hmd,
          hc, FS.readBytes_writeFile_self, Bool.true_eq_false, if_false, eq_self_iff_true,
          if_true, hbeq, Bool.false_eq_true]
    · simp only [force_update, hbuilt, href, han, hpath, hurl, hver, hgcv, hsr, hcl, hn, hmd,
        hc, FS.readBytes_writeFile_self, Bool.true_eq_false, if_false, if_true]
      exact FS.lookup_removeFile_self _ _


open GithubUpdater in
/-- C7: the asset-content download requires a `content-length` response
header: when it is absent the invocation fails with the dedicated fetch
error and no file content is written to disk (no path gains or changes
content; at most the stale staging file was removed beforehand). -/
theorem force_update_requires_content_length
    (env : Env) (s s1 : GithubUpdater) (fs : FS)
    (app_name path release_url new_version : String) (previous_version : Option String)
    (resp : HttpResp)
    (hbuilt : s.built = true)
    (href : refresh_step env s = (.ok (), s1))
    (han : s1.app_name = some app_name)
    (hpath : s1.download_path = some path)
    (hurl : s1.release_url = some release_url)
    (hver : s1.app_version = some new_version)
    (hclient : s1.reqwest_client = true)
    (hgcv : get_current_version app_name path fs = .ok previous_version)
    (hresp : env.asset_resp = some resp)
    (hstatus : resp.status_success = true)
    (hnocl : resp.content_length = none) :
    (force_update env s fs).1 = .error (.FetchError "The content-length header is absent.") ∧
    ∀ p : String, (force_update env s fs).2.2.lookup p = fs.lookup p ∨
      (force_update env s fs).2.2.lookup p = none := by
  have hsr : send_request s1 release_url env.asset_resp = .ok resp := by
    simp [send_request, hclient, hresp, hstatus]
  have hfu : force_update env s fs =
      (.error (.FetchError "The content-length header is absent."), s1,
        (if ((if !(fs.dirExists path) then fs.createDirAll path else fs)).fileExists
              (if fs.fileExists (pathJoin path (s1.generate_file_name app_name))
                then pathJoin path ("new_" ++ s1.generate_file_name app_name)
                else pathJoin path (s1.generate_file_name app_name))
          then ((if !(fs.dirExists path) then fs.createDirAll path else fs)).removeFile
              (if fs.fileExists (pathJoin path (s1.generate_file_name app_name))
                then pathJoin path ("new_" ++ s1.generate_file_name app_name)
                else pathJoin path (s1.generate_file_name app_name))
          else ((if !(fs.dirExists path) then fs.createDirAll path else fs)))) := by
    simp only [force_update, hbuilt, href, han, hpath, hurl, hver, hgcv, hsr, hnocl,
      Bool.true_eq_false, if_false]
  refine ⟨by rw [hfu], ?_⟩
  intro p
  rw [hfu]
  exact lookup_if_remove _ fs _ (lookup_dir_base fs path) p



theorem fileExists_dir_base (fs : FS) (path q : String) :
    ((if !(fs.dirExists path) then fs.createDirAll path else fs)).fileExists q =
      fs.fileExists q := by
  unfold FS.fileExists
  rw [lookup_dir_base]

open GithubUpdater in
/-- Inversion of a successful `fetch_last_release`: the initial state was
built, and only `app_version` and `release_url` were updated. -/
theorem fetch_ok_spec (env : Env) (s s1 : GithubUpdater)
    (h : fetch_last_release env s = (.ok (), s1)) :
    s.built = true ∧
    ∃ name url, s1 = { s with app_version := some name, release_url := some url } := by
  unfold fetch_last_release at h
  by_cases hb : s.built = false
  · rw [if_pos hb] at h
    exact absurd (congrArg Prod.fst h) (by simp)
  · rw [if_neg hb] at h
    refine ⟨by revert hb; cases s.built <;> simp, ?_⟩
    rcases hrepo : s.repository_infos with _ | repo
    · simp only [hrepo] at h
      exact absurd (congrArg Prod.fst h) (by simp)
    · simp only [hrepo] at h
      rcases hsr : send_request s
          ("https://api.github.com/repos/" ++ repo.1 ++ "/" ++ repo.2 ++ "/releases/latest")
          env.meta_resp with e | r
      · simp only [hsr] at h
        exact absurd (congrArg Prod.fst h) (by simp)
      · simp only [hsr] at h
        rcases hjson : env.meta_json with _ | release
        · simp only [hjson] at h
          exact absurd (congrArg Prod.fst h) (by simp)
        · simp only [hjson] at h
          rcases hpat : s.pattern with _ | pat0
          · simp only [hpat] at h
            exact absurd (congrArg Prod.fst h) (by simp)
          · simp only [hpat] at h
            rcases hfind : (release.assets.map (·.browser_download_url)).find?
                (fun v => strContains v
                  (match s.rust_target with
                  | some rust_target =>
                      strReplace
                        (match s.app_name with
                        | some app_name =>
                            strReplace (strReplace pat0 "{app_version}" release.name)
                              "{app_name}" app_name
                        | none => strReplace pat0 "{app_version}" release.name)
                        "{rust_target}" rust_target
                  | none =>
                      match s.app_name with
                      | some app_name =>
                          strReplace (strReplace pat0 "{app_version}" release.name)
                            "{app_name}" app_name
                      | none => strReplace pat0 "{app_version}" release.name)) with
              _ | mv
            · simp only [hfind] at h
              exact absurd (congrArg Prod.fst h) (by simp)
            · simp only [hfind] at h
              rcases hfind2 : (release.assets.find?
                  (fun a => a.browser_download_url == mv)).map (·.url) with _ | api_url
              · simp only [hfind2] at h
                exact absurd (congrArg Prod.fst h) (by simp)
              · simp only [hfind2] at h
                refine ⟨release.name, api_url, ?_⟩
                have := congrArg Prod.snd h
                simpa using this.symm

open GithubUpdater in
/-- C9: on a fresh install (no prior artifact and no version sidecar), a
successful `force_update` writes the download directly to the target path,
never touches the staging path `new_<file_name>`, writes the sidecar with
the new version, and reports no previous version. -/
theorem fresh_install_writes_directly_to_target
    (env : Env) (s s1 : GithubUpdater) (fs : FS)
    (app_name path release_url new_version cl_str : String)
    (n : Nat) (resp : HttpResp)
    (hbuilt : s.built = true)
    (href : refresh_step env s = (.ok (), s1))
    (han : s1.app_name = some app_name)
    (hpath : s1.download_path = some path)
    (hurl : s1.release_url = some release_url)
    (hver : s1.app_version = some new_version)
    (hclient : s1.reqwest_client = true)
    (hresp : env.asset_resp = some resp)
    (hstatus : resp.status_success = true)
    (hcl : resp.content_length = some cl_str)
    (hn : parseUsize cl_str = some n)
    (hnoart : fs.fileExists (pathJoin path (s1.generate_file_name app_name)) = false)
    (hnosc : fs.fileExists
      (pathJoin path ("binary-version-" ++ app_name ++ ".txt")) = false)
    (hdig : resp.content_md5 = none ∨ resp.content_md5 = some (env.md5_base64 resp.body))
    (hsize : n = resp.body.length) :
    (force_update env s fs).1 =
      .ok { previous_version := none, new_version := new_version,
            has_been_updated := true, forced_update := s1.forced_update } ∧
    (force_update env s fs).2.2.lookup (pathJoin path (s1.generate_file_name app_name)) =
      some ⟨resp.body, true⟩ ∧
    (force_update env s fs).2.2.lookup
        (pathJoin path ("binary-version-" ++ app_name ++ ".txt")) =
      some ⟨new_version, true⟩ ∧
    (force_update env s fs).2.2.lookup
        (pathJoin path ("new_" ++ s1.generate_file_name app_name)) =
      fs.lookup (pathJoin path ("new_" ++ s1.generate_file_name app_name)) := by
  have hsr : send_request s1 release_url env.asset_resp = .ok resp := by
    simp [send_request, hclient, hresp, hstatus]
  have hgcv : get_current_version app_name path fs = .ok none := by
    simp [get_current_version, hnosc]
  have hfe : ((if !(fs.dirExists path) then fs.createDirAll path else fs)).fileExists
      (pathJoin path (s1.generate_file_name app_name)) = false := by
    rw [fileExists_dir_base]
    exact hnoart
  have hartp := generate_file_name_shape s1 app_name
  have hvne : pathJoin path (s1.generate_file_name app_name) ≠
      pathJoin path ("binary-version-" ++ app_name ++ ".txt") := by
    rcases hartp with h0 | ⟨e, he⟩
    · rw [h0]
      exact artifact_path_ne_version_path path app_name "" (Or.inl rfl)
    · rw [he]
      exact artifact_path_ne_version_path path app_name ("." ++ e) (Or.inr ⟨e, rfl⟩)
  have hsne : pathJoin path ("new_" ++ s1.generate_file_name app_name) ≠
      pathJoin path (s1.generate_file_name app_name) :=
    staging_path_ne_artifact_path path (s1.generate_file_name app_name)
  have hsvne : pathJoin path ("new_" ++ s1.generate_file_name app_name) ≠
      pathJoin path ("binary-version-" ++ app_name ++ ".txt") :=
    staging_path_ne_version_path path app_name (s1.generate_file_name app_name)
  have hlen2 : (n != resp.body.length) = false := by
    simp [bne_iff_ne, hsize]
  rcases hdig with hmd | hmd
  · refine ⟨?_, ?_, ?_, ?_⟩
    · simp only [force_update, hbuilt, href, han, hpath, hurl, hver, hgcv, hsr, hcl, hn, hmd,
        hnoart, hfe, hlen2, bne_self_eq_false, Bool.false_or, Bool.true_eq_false,
        Bool.false_eq_true, if_false, Bool.and_false]
    · simp only [force_update, hbuilt, href, han, hpath, hurl, hver, hgcv, hsr, hcl, hn, hmd,
        hnoart, hfe, hlen2, bne_self_eq_false, Bool.false_or, Bool.true_eq_false,
        Bool.false_eq_true, if_false, Bool.and_false]
      rw [FS.lookup_writeFile_ne _ _ _ _ hvne]
      exact FS.lookup_writeFile_self _ _ _
    · simp only [force_update, hbuilt, href, han, hpath, hurl, hver, hgcv, hsr, hcl, hn, hmd,
        hnoart, hfe, hlen2, bne_self_eq_false, Bool.false_or, Bool.true_eq_false,
        Bool.false_eq_true, if_false, Bool.and_false]
      exact FS.lookup_writeFile_self _ _ _
    · simp only [force_update, hbuilt, href, han, hpath, hurl, hver, hgcv, hsr, hcl, hn, hmd,
        hnoart, hfe, hlen2, bne_self_eq_false, Bool.false_or, Bool.true_eq_false,
        Bool.false_eq_true, if_false, Bool.and_false]
      rw [FS.lookup_writeFile_ne _ _ _ _ hsvne, FS.lookup_writeFile_ne _ _ _ _ hsne]
      exact lookup_dir_base fs path _
  · refine ⟨?_, ?_, ?_, ?_⟩
    · simp only [force_update, hbuilt, href, han, hpath, hurl, hver, hgcv, hsr, hcl, hn, hmd,
        FS.readBytes_writeFile_self, hnoart, hfe, hlen2, bne_self_eq_false, Bool.false_or,
        Bool.true_eq_false, Bool.false_eq_true, if_false, Bool.and_false]
    · simp only [force_update, hbuilt, href, han, hpath, hurl, hver, hgcv, hsr, hcl, hn, hmd,
        FS.readBytes_writeFile_self, hnoart, hfe, hlen2, bne_self_eq_false, Bool.false_or,
        Bool.true_eq_false, Bool.false_eq_true, if_false, Bool.and_false]
      rw [FS.lookup_writeFile_ne _ _ _ _ hvne]
      exact FS.lookup_writeFile_self _ _ _
    · simp only [force_update, hbuilt, href, han, hpath, hurl, hver, hgcv, hsr, hcl, hn, hmd,
        FS.readBytes_writeFile_self, hnoart, hfe, hlen2, bne_self_eq_false, Bool.false_or,
        Bool.true_eq_false, Bool.false_eq_true, if_false, Bool.and_false]
      exact FS.lookup_writeFile_self _ _ _
    · simp only [force_update, hbuilt, href, han, hpath, hurl, hver, hgcv, hsr, hcl, hn, hmd,
        FS.readBytes_writeFile_self, hnoart, hfe, hlen2, bne_self_eq_false, Bool.false_or,
        Bool.true_eq_false, Bool.false_eq_true, if_false, Bool.and_false]
      rw [FS.lookup_writeFile_ne _ _ _ _ hsvne, FS.lookup_writeFile_ne _ _ _ _ hsne]
      exact lookup_dir_base fs path _

open GithubUpdater in
/-- C8 (amended): when the erase-previous-file policy is disabled and a
prior artifact exists, a successful update leaves the previous artifact
unchanged at the primary target path, leaves the newly verified artifact at
the staging path `new_<file_name>` (it is NOT renamed onto the primary
path), and still writes the version sidecar with the new version. -/
theorem disabled_erase_preserves_previous_and_stages_new
    (env : Env) (s s1 : GithubUpdater) (fs : FS)
    (app_name path release_url new_version cl_str : String)
    (previous_version : Option String) (n : Nat) (resp : HttpResp)
    (hbuilt : s.built = true)
    (href : refresh_step env s = (.ok (), s1))
    (han : s1.app_name = some app_name)
    (hpath : s1.download_path = some path)
    (hurl : s1.release_url = some release_url)
    (hver : s1.app_version = some new_version)
    (hclient : s1.reqwest_client = true)
    (hgcv : get_current_version app_name path fs = .ok previous_version)
    (hresp : env.asset_resp = some resp)
    (hstatus : resp.status_success = true)
    (hcl : resp.content_length = some cl_str)
    (hn : parseUsize cl_str = some n)
    (herase : s1.erase_previous_file = false)
    (hart : fs.fileExists (pathJoin path (s1.generate_file_name app_name)) = true)
    (hdig : resp.content_md5 = none ∨ resp.content_md5 = some (env.md5_base64 resp.body))
    (hsize : n = resp.body.length) :
    (force_update env s fs).1 =
      .ok { previous_version := previous_version, new_version := new_version,
            has_been_updated := true, forced_update := s1.forced_update } ∧
    (force_update env s fs).2.2.lookup (pathJoin path (s1.generate_file_name app_name)) =
      fs.lookup (pathJoin path (s1.generate_file_name app_name)) ∧
    (force_update env s fs).2.2.lookup
        (pathJoin path ("new_" ++ s1.generate_file_name app_name)) =
      some ⟨resp.body, true⟩ ∧
    (force_update env s fs).2.2.lookup
        (pathJoin path ("binary-version-" ++ app_name ++ ".txt")) =
      some ⟨new_version, true⟩ := by
  have hsr : send_request s1 release_url env.asset_resp = .ok resp := by
    simp [send_request, hclient, hresp, hstatus]
  have hartp := generate_file_name_shape s1 app_name
  have hvne : pathJoin path (s1.generate_file_name app_name) ≠
      pathJoin path ("binary-version-" ++ app_name ++ ".txt") := by
    rcases hartp with h0 | ⟨e, he⟩
    · rw [h0]
      exact artifact_path_ne_version_path path app_name "" (Or.inl rfl)
    · rw [he]
      exact artifact_path_ne_version_path path app_name ("." ++ e) (Or.inr ⟨e, rfl⟩)
  have hane : pathJoin path (s1.generate_file_name app_name) ≠
      pathJoin path ("new_" ++ s1.generate_file_name app_name) :=
    (staging_path_ne_artifact_path path (s1.generate_file_name app_name)).symm
  have hsvne : pathJoin path ("new_" ++ s1.generate_file_name app_name) ≠
      pathJoin path ("binary-version-" ++ app_name ++ ".txt") :=
    staging_path_ne_version_path path app_name (s1.generate_file_name app_name)
  have hlen2 : (n != resp.body.length) = false := by
    simp [bne_iff_ne, hsize]
  rcases hdig with hmd | hmd
  · refine ⟨?_, ?_, ?_, ?_⟩
    · simp only [force_update, hbuilt, href, han, hpath, hurl, hver, hgcv, hsr, hcl, hn, hmd,
        hart, herase, hlen2, bne_self_eq_false, Bool.false_or, Bool.true_eq_false,
        Bool.false_eq_true, if_false, if_true, Bool.false_and]
    · simp only [force_update, hbuilt, href, han, hpath, hurl, hver, hgcv, hsr, hcl, hn, hmd,
        hart, herase, hlen2, bne_self_eq_false, Bool.false_or, Bool.true_eq_false,
        Bool.false_eq_true, if_false, if_true, Bool.false_and]
      rw [FS.lookup_writeFile_ne _ _ _ _ hvne, FS.lookup_writeFile_ne _ _ _ _ hane,
        lookup_if_remove_ne _ _ _ hane]
      exact lookup_dir_base fs path _
    · simp only [force_update, hbuilt, href, han, hpath, hurl, hver, hgcv, hsr, hcl, hn, hmd,
        hart, herase, hlen2, bne_self_eq_false, Bool.false_or, Bool.true_eq_false,
        Bool.false_eq_true, if_false, if_true, Bool.false_and]
      rw [FS.lookup_writeFile_ne _ _ _ _ hsvne]
      exact FS.lookup_writeFile_self _ _ _
    · simp only [force_update, hbuilt, href, han, hpath, hurl, hver, hgcv, hsr, hcl, hn, hmd,
        hart, herase, hlen2, bne_self_eq_false, Bool.false_or, Bool.true_eq_false,
        Bool.false_eq_true, if_false, if_true, Bool.false_and]
      exact FS.lookup_writeFile_self _ _ _
  · refine ⟨?_, ?_, ?_, ?_⟩
    · simp only [force_update, hbuilt, href, han, hpath, hurl, hver, hgcv, hsr, hcl, hn, hmd,
        FS.readBytes_writeFile_self, hart, herase, hlen2, bne_self_eq_false, Bool.false_or,
        Bool.true_eq_false, Bool.false_eq_true, if_false, if_true, Bool.false_and]
    · simp only [force_update, hbuilt, href, han, hpath, hurl, hver, hgcv, hsr, hcl, hn, hmd,
        FS.readBytes_writeFile_self, hart, herase, hlen2, bne_self_eq_false, Bool.false_or,
        Bool.true_eq_false, Bool.false_eq_true, if_false, if_true, Bool.false_and]
      rw [FS.lookup_writeFile_ne _ _ _ _ hvne, FS.lookup_writeFile_ne _ _ _ _ hane,
        lookup_if_remove_ne _ _ _ hane]
      exact lookup_dir_base fs path _
    · simp only [force_update, hbuilt, href, han, hpath, hurl, hver, hgcv, hsr, hcl, hn, hmd,
        FS.readBytes_writeFile_self, hart, herase, hlen2, bne_self_eq_false, Bool.false_or,
        Bool.true_eq_false, Bool.false_eq_true, if_false, if_true, Bool.false_and]
      rw [FS.lookup_writeFile_ne _ _ _ _ hsvne]
      exact FS.lookup_writeFile_self _ _ _
    · simp only [force_update, hbuilt, href, han, hpath, hurl, hver, hgcv, hsr, hcl, hn, hmd,
        FS.readBytes_writeFile_self, hart, herase, hlen2, bne_self_eq_false, Bool.false_or,
        Bool.true_eq_false, Bool.false_eq_true, if_false, if_true, Bool.false_and]
      exact FS.lookup_writeFile_self _ _ _

open GithubUpdater in
/-- C10: whenever the version sidecar is absent or the installed artifact
is absent, `check_if_update_is_needed` decides that an update is needed
(regardless of any version strings), and `update_if_needed` performs the
full download/install sequence of `force_update`. -/
theorem missing_state_forces_full_update
    (env : Env) (s s1 : GithubUpdater) (fs : FS) (path app_name : String)
    (hbuilt : s.built = true)
    (hfetch : fetch_last_release env s = (.ok (), s1))
    (hpath : s1.download_path = some path)
    (han : s1.app_name = some app_name)
    (hmiss :
      fs.fileExists (pathJoin path ("binary-version-" ++ app_name ++ ".txt")) = false ∨
      fs.fileExists (pathJoin path (s1.generate_file_name app_name)) = false) :
    check_if_update_is_needed { s1 with need_refresh := false } fs = .ok true ∧
    update_if_needed env s fs =
      force_update env { s1 with need_refresh := false, forced_update := false } fs := by
  obtain ⟨-, name, url, hs1⟩ := fetch_ok_spec env s s1 hfetch
  have hb1 : s1.built = true := by rw [hs1]; exact hbuilt
  have hav : s1.app_version = some name := by rw [hs1]
  have hcheck : check_if_update_is_needed { s1 with need_refresh := false } fs = .ok true := by
    rcases hmiss with hm | hm
    · simp only [check_if_update_is_needed, GithubUpdater.generate_file_name, hb1, hpath, hav,
        han, hm, Bool.true_eq_false, Bool.not_false, Bool.true_or, if_false, if_true]
    · rcases hfe : s1.file_extension with _ | ext <;>
      · simp only [GithubUpdater.generate_file_name, hfe] at hm
        simp only [check_if_update_is_needed, GithubUpdater.generate_file_name, hfe, hb1,
          hpath, hav, han, hm, Bool.true_eq_false, Bool.not_false, Bool.or_true, if_false,
          if_true]
  refine ⟨hcheck, ?_⟩
  simp only [update_if_needed, hbuilt, hfetch, hcheck, Bool.true_eq_false, if_false, if_true]

open GithubUpdater in
/-- Inversion of a failing `check_if_update_is_needed` on a state whose
required fields are present: the failure is the version-file read. -/
theorem check_error_inv (s2 : GithubUpdater) (fs : FS) (path cv an : String)
    (e : GithubUpdaterError)
    (hb : s2.built = true) (hdp : s2.download_path = some path)
    (hav : s2.app_version = some cv) (han : s2.app_name = some an)
    (h : check_if_update_is_needed s2 fs = .error e) :
    fs.fileExists (pathJoin path ("binary-version-" ++ an ++ ".txt")) = true ∧
    fs.readToString (pathJoin path ("binary-version-" ++ an ++ ".txt")) = .error e := by
  unfold check_if_update_is_needed at h
  simp only [hb, hdp, hav, han, Bool.true_eq_false, if_false] at h
  by_cases hex : (!(fs.fileExists (pathJoin path ("binary-version-" ++ an ++ ".txt")))
      || !(fs.fileExists (pathJoin path (s2.generate_file_name an)))) = true
  · rw [if_pos hex] at h
    exact absurd h (by simp)
  · rw [if_neg hex] at h
    have hex' := eq_false_of_ne_true hex
    have hvf : fs.fileExists (pathJoin path ("binary-version-" ++ an ++ ".txt")) = true := by
      rcases Bool.or_eq_false_iff.mp hex' with ⟨h1, -⟩
      simpa using h1
    refine ⟨hvf, ?_⟩
    rcases hread : fs.readToString (pathJoin path ("binary-version-" ++ an ++ ".txt"))
        with e' | pv
    · simp only [hread] at h
      injection h with h'
      rw [h']
    · simp only [hread] at h
      exact absurd h (by simp)

open GithubUpdater in
/-- C3: failures are terminal: a failing release fetch is returned as the
invocation error as-is; a failing up-to-date check (a version-file read
failure) still surfaces as that same error (the `unwrap_or(false)` is
re-detected by the subsequent version read), and when an update is needed
the whole outcome is exactly the `force_update` outcome, so its failures
propagate unchanged. There is no partial-success return value. -/
theorem update_pipeline_failures_are_terminal (env : Env) (s : GithubUpdater) (fs : FS) :
    (∀ (e : GithubUpdaterError) (s1 : GithubUpdater), s.built = true →
      fetch_last_release env s = (.error e, s1) →
      update_if_needed env s fs = (.error e, s1, fs)) ∧
    (∀ (e : GithubUpdaterError) (s1 : GithubUpdater) (path an : String), s.built = true →
      fetch_last_release env s = (.ok (), s1) →
      s1.download_path = some path → s1.app_name = some an →
      check_if_update_is_needed { s1 with need_refresh := false } fs = .error e →
      (update_if_needed env s fs).1 = .error e) ∧
    (∀ s1 : GithubUpdater, s.built = true →
      fetch_last_release env s = (.ok (), s1) →
      check_if_update_is_needed { s1 with need_refresh := false } fs = .ok true →
      update_if_needed env s fs =
        force_update env { s1 with need_refresh := false, forced_update := false } fs) := by
  refine ⟨?_, ?_, ?_⟩
  · intro e s1 hbuilt hfetch
    simp only [update_if_needed, hbuilt, hfetch, Bool.true_eq_false, if_false]
  · intro e s1 path an hbuilt hfetch hdp han hcheck
    obtain ⟨-, name, url, hs1⟩ := fetch_ok_spec env s s1 hfetch
    have hb2 : ({ s1 with need_refresh := false } : GithubUpdater).built = true := by
      rw [hs1]; exact hbuilt
    have hav2 : ({ s1 with need_refresh := false } : GithubUpdater).app_version = some name := by
      rw [hs1]
    obtain ⟨hvf, hread⟩ := check_error_inv { s1 with need_refresh := false } fs path name an e
      hb2 hdp hav2 han hcheck
    have hgcv : get_current_version an path fs = .error e := by
      simp only [get_current_version, hvf, if_true, hread]
      rfl
    simp only [han, hdp] at hcheck
    simp only [update_if_needed, hbuilt, hfetch, hdp, han, hcheck, hgcv,
      Bool.true_eq_false, Bool.false_eq_true, if_false]
  · intro s1 hbuilt hfetch hcheck
    simp only [update_if_needed, hbuilt, hfetch, hcheck, Bool.true_eq_false, if_false, if_true]

open GithubUpdater in
/-- C2 (amended): the up-to-date decision of `update_if_needed` consults
only file existence and the recorded version string: when both the sidecar
and the artifact exist and the sidecar reads `pv`, the decision is "up to
date" exactly when `trim(pv)` equals the release version — no digest of
the installed artifact is ever compared. On the up-to-date outcome nothing
is written to disk. -/
theorem update_decision_is_version_only
    (env : Env) (s s1 : GithubUpdater) (fs : FS) (path an cv pv : String)
    (hbuilt : s.built = true)
    (hfetch : fetch_last_release env s = (.ok (), s1))
    (hpath : s1.download_path = some path)
    (han : s1.app_name = some an)
    (hav : s1.app_version = some cv)
    (hvf : fs.fileExists (pathJoin path ("binary-version-" ++ an ++ ".txt")) = true)
    (haf : fs.fileExists (pathJoin path (s1.generate_file_name an)) = true)
    (hrd : fs.readToString (pathJoin path ("binary-version-" ++ an ++ ".txt")) = .ok pv) :
    (check_if_update_is_needed { s1 with need_refresh := false } fs = .ok false ↔
      strTrim pv = cv) ∧
    (strTrim pv = cv →
      update_if_needed env s fs =
        (.ok { previous_version := some pv, new_version := pv,
               has_been_updated := false, forced_update := false },
          { s1 with need_refresh := false }, fs)) := by
  have hb1 : s1.built = true := by
    obtain ⟨-, name, url, hs1⟩ := fetch_ok_spec env s s1 hfetch
    rw [hs1]; exact hbuilt
  have hcheck : check_if_update_is_needed { s1 with need_refresh := false } fs =
      .ok (strTrim pv != cv) := by
    rcases hfe : s1.file_extension with _ | ext <;>
    · simp only [GithubUpdater.generate_file_name, hfe] at haf
      simp only [check_if_update_is_needed, GithubUpdater.generate_file_name, hfe, hb1, hpath,
        hav, han, hvf, haf, hrd, Bool.true_eq_false, Bool.not_true, Bool.or_false, if_false,
        Bool.false_eq_true]
  constructor
  · rw [hcheck]
    constructor
    · intro h
      injection h with h'
      exact eq_of_beq (by simpa using h')
    · intro h
      simp [h]
  · intro hteq
    have hcheck2 : check_if_update_is_needed { s1 with need_refresh := false } fs =
        .ok false := by
      rw [hcheck]
      simp [hteq]
    have hgcv : get_current_version an path fs = .ok (some pv) := by
      simp only [get_current_version, hvf, if_true, hrd]
      rfl
    simp only [han, hpath] at hcheck2
    simp only [update_if_needed, hbuilt, hfetch, hpath, han, hcheck2, hgcv,
      Bool.true_eq_false, Bool.false_eq_true, if_false]
    rfl

open GithubUpdater in
/-- C4 (amended): `force_update` resolves the latest release only when
`need_refresh` is set: with `need_refresh = false` its outcome is entirely
independent of the release-metadata endpoint, and with `need_refresh =
true` a failing resolution aborts the call with that fetch error. -/
theorem force_update_resolves_only_when_need_refresh (env env2 : Env) (s : GithubUpdater) (fs : FS) :
    (s.need_refresh = false → env.asset_resp = env2.asset_resp →
      env.md5_base64 = env2.md5_base64 → force_update env s fs = force_update env2 s fs) ∧
    (∀ (e : GithubUpdaterError) (s1 : GithubUpdater), s.need_refresh = true →
      s.built = true → fetch_last_release env s = (.error e, s1) →
      force_update env s fs = (.error e, s1, fs)) := by
  constructor
  · intro hnr har hmd
    by_cases hb : s.built = false
    · simp [force_update, hb]
    · have hb' : s.built = true := by revert hb; cases s.built <;> simp
      simp only [force_update, refresh_step, hnr, hb', Bool.true_eq_false, Bool.false_eq_true,
        if_false, har, hmd]
  · intro e s1 hnr hb hf
    simp only [force_update, refresh_step, hnr, hb, Bool.true_eq_false, if_false,
      eq_self_iff_true, if_true, hf]

open GithubUpdater in
/-- C6 (amended): when the server supplies no `content-md5` digest,
verification is length-only: the call succeeds exactly when the declared
length matches the body length, fails with the size-mismatch error
otherwise, and the outcome (including the returned `DownloadInfos`, which
has no `checksum_verified` field) is independent of the digest function. -/
theorem no_digest_means_length_only_verification
    (env : Env) (s s1 : GithubUpdater) (fs : FS)
    (app_name path release_url new_version cl_str : String)
    (previous_version : Option String) (n : Nat) (resp : HttpResp)
    (hbuilt : s.built = true)
    (href : refresh_step env s = (.ok (), s1))
    (han : s1.app_name = some app_name)
    (hpath : s1.download_path = some path)
    (hurl : s1.release_url = some release_url)
    (hver : s1.app_version = some new_version)
    (hclient : s1.reqwest_client = true)
    (hgcv : get_current_version app_name path fs = .ok previous_version)
    (hresp : env.asset_resp = some resp)
    (hstatus : resp.status_success = true)
    (hcl : resp.content_length = some cl_str)
    (hn : parseUsize cl_str = some n)
    (hmd : resp.content_md5 = none) :
    (n = resp.body.length →
      (force_update env s fs).1 =
        .ok { previous_version := previous_version, new_version := new_version,
              has_been_updated := true, forced_update := s1.forced_update }) ∧
    (n ≠ resp.body.length →
      (force_update env s fs).1 =
        .error (.FetchError "File corrupted: Incorrect file size detected.")) ∧
    (∀ env2 : Env, env2.meta_resp = env.meta_resp → env2.meta_json = env.meta_json →
      env2.asset_resp = env.asset_resp → force_update env2 s fs = force_update env s fs) := by
  have hsr : send_request s1 release_url env.asset_resp = .ok resp := by
    simp [send_request, hclient, hresp, hstatus]
  refine ⟨?_, ?_, ?_⟩
  · intro hsize
    have hlen2 : (n != resp.body.length) = false := by simp [bne_iff_ne, hsize]
    simp only [force_update, hbuilt, href, han, hpath, hurl, hver, hgcv, hsr, hcl, hn, hmd,
      hlen2, bne_self_eq_false, Bool.false_or, Bool.true_eq_false, Bool.false_eq_true,
      if_false]
  · intro hsize
    have hlen2 : (n != resp.body.length) = true := by simp [bne_iff_ne, hsize]
    simp only [force_update, hbuilt, href, han, hpath, hurl, hver, hgcv, hsr, hcl, hn, hmd,
      hlen2, bne_self_eq_false, Bool.false_or, Bool.true_eq_false, Bool.false_eq_true,
      if_false, eq_self_iff_true, if_true, beq_self_eq_true]
  · intro env2 hmr hmj har
    have href2 : refresh_step env2 s = (.ok (), s1) := by
      unfold refresh_step fetch_last_release send_request
      unfold refresh_step fetch_last_release send_request at href
      rw [hmr, hmj]
      exact href
    have hsr2 : send_request s1 release_url env2.asset_resp = .ok resp := by
      rw [har]
      exact hsr
    simp only [force_update, hbuilt, href, href2, han, hpath, hurl, hver, hgcv, hsr, hsr2,
      hcl, hn, hmd, Bool.true_eq_false, Bool.false_eq_true, if_false]

/-- `find?` returns the element at the first index satisfying the test. -/
theorem find?_eq_of_first {α : Type} (p : α → Bool) :
    ∀ (l : List α) (i : Nat) (hi : i < l.length), p (l.get ⟨i, hi⟩) = true →
      (∀ (j : Nat) (hj : j < l.length), j < i → p (l.get ⟨j, hj⟩) = false) →
      l.find? p = some (l.get ⟨i, hi⟩) := by
  intro l
  induction l with
  | nil => intro i hi; simp at hi
  | cons hd tl ih =>
    intro i hi hp hmin
    cases i with
    | zero =>
      exact List.find?_cons_of_pos _ hp
    | succ i' =>
      have hhd : p hd = false := hmin 0 (by simp) (by omega)
      rw [List.find?_cons_of_neg _ (by simp [hhd])]
      have hget : (hd :: tl).get ⟨i' + 1, hi⟩ = tl.get ⟨i', by simpa using hi⟩ := rfl
      rw [hget]
      rw [hget] at hp
      exact ih i' _ hp (fun j hj hji => hmin (j + 1) (by simpa using hj) (by omega))

open GithubUpdater in
/-- C5 (amended): release resolution substitutes `{app_version}`, then
`{app_name}`, then `{rust_target}` into the pattern, and selects the first
asset (in feed order) whose browser download URL — not its name — contains
the substituted string, failing with the "no matching" fetch error when no
URL contains it. -/
theorem fetch_selects_first_matching_download_url
    (env : Env) (s : GithubUpdater) (release : Release) (mresp : HttpResp)
    (repo : String × String) (pat0 an rt pat3 : String)
    (hbuilt : s.built = true)
    (hclient : s.reqwest_client = true)
    (hrepo : s.repository_infos = some repo)
    (hmeta : env.meta_resp = some mresp)
    (hms : mresp.status_success = true)
    (hjson : env.meta_json = some release)
    (hpat : s.pattern = some pat0)
    (han : s.app_name = some an)
    (hrt : s.rust_target = some rt)
    (hpat3 : pat3 = strReplace
      (strReplace (strReplace pat0 "{app_version}" release.name) "{app_name}" an)
      "{rust_target}" rt) :
    ((∀ a ∈ release.assets, strContains a.browser_download_url pat3 = false) →
      fetch_last_release env s =
        (.error (.FetchError "No URL matching the pattern entered was found."),
          { s with app_version := some release.name })) ∧
    (∀ (i : Nat) (hi : i < release.assets.length),
      strContains (release.assets.get ⟨i, hi⟩).browser_download_url pat3 = true →
      (∀ (j : Nat) (hj : j < release.assets.length), j < i →
        strContains (release.assets.get ⟨j, hj⟩).browser_download_url pat3 = false) →
      fetch_last_release env s =
        (.ok (),
          { s with
              app_version := some release.name
              release_url := some (release.assets.get ⟨i, hi⟩).url })) := by
  have hsr : ∀ url : String, send_request s url env.meta_resp = .ok mresp := by
    intro url
    simp [send_request, hclient, hmeta, hms]
  constructor
  · intro hnone
    have hfind : (release.assets.map (·.browser_download_url)).find?
        (fun v => strContains v pat3) = none := by
      rw [List.find?_eq_none]
      intro v hv
      rcases List.mem_map.mp hv with ⟨a, ha, rfl⟩
      simp [hnone a ha]
    rw [hpat3] at hfind
    simp only [fetch_last_release, hbuilt, hrepo, hsr, hjson, hpat, han, hrt, hfind,
      Bool.true_eq_false, if_false]
  · intro i hi hc hmin
    have hmaplen : (release.assets.map (·.browser_download_url)).length =
        release.assets.length := by simp
    have hmg : ∀ (k : Nat) (hk : k < (release.assets.map (·.browser_download_url)).length),
        (release.assets.map (·.browser_download_url)).get ⟨k, hk⟩ =
          (release.assets.get ⟨k, by omega⟩).browser_download_url := by
      intro k hk
      simp [List.getElem_map]
    have hfind : (release.assets.map (·.browser_download_url)).find?
        (fun v => strContains v pat3) =
        some ((release.assets.get ⟨i, hi⟩).browser_download_url) := by
      have h1 := find?_eq_of_first (fun v => strContains v pat3)
        (release.assets.map (·.browser_download_url)) i (by omega) ?_ ?_
      · rw [h1, hmg i (by omega)]
      · rw [hmg i (by omega)]
        exact hc
      · intro j hj hji
        rw [hmg j hj]
        exact hmin j (by omega) hji
    have hbeqmin : ∀ (j : Nat) (hj : j < release.assets.length), j < i →
        ((release.assets.get ⟨j, hj⟩).browser_download_url ==
          (release.assets.get ⟨i, hi⟩).browser_download_url) = false := by
      intro j hj hji
      cases hb : ((release.assets.get ⟨j, hj⟩).browser_download_url ==
          (release.assets.get ⟨i, hi⟩).browser_download_url)
      · rfl
      · have heq := eq_of_beq hb
        have := hmin j hj hji
        rw [heq, hc] at this
        exact absurd this (by simp)
    have hfind2 : release.assets.find?
        (fun a => a.browser_download_url == (release.assets.get ⟨i, hi⟩).browser_download_url) =
        some (release.assets.get ⟨i, hi⟩) := by
      have h1 := find?_eq_of_first
        (fun a => a.browser_download_url == (release.assets.get ⟨i, hi⟩).browser_download_url)
        release.assets i hi (by simp) (fun j hj hji => hbeqmin j hj hji)
      exact h1
    rw [hpat3] at hfind
    simp only [fetch_last_release, hbuilt, hrepo, hsr, hjson, hpat, han, hrt, hfind, hfind2,
      Bool.true_eq_false, if_false]
    rfl

/-! ### Counterexamples -/

open GithubUpdater in
/-- C2 (counterexample): with an installed artifact `OLD`, a wire asset
carrying a digest of different content `NEW`, and matching version strings,
the code short-circuits to the not-updated outcome without touching disk,
although the spec's decision (which compares the digests) says an update is
needed: the decision never takes any digest into account. -/
theorem update_decision_ignores_digest_cex :
    update_if_needed envC2 sBase fsPrev =
      (.ok { previous_version := some "1.0", new_version := "1.0",
             has_been_updated := false, forced_update := false },
        { sBase with app_version := some "1.0", release_url := some "api-1" }, fsPrev) ∧
    relC2.assets = wireC2.map AssetJson.toAsset ∧
    wireC2.map (fun a => a.digest) = [some (md5_model "NEW")] ∧
    fsPrev.lookup "d/tool" = some ⟨"OLD", true⟩ ∧
    md5_model "OLD" ≠ md5_model "NEW" ∧
    spec_up_to_date (some (md5_model "OLD")) (some (md5_model "NEW")) "1.0" "1.0" = false := by
  decide

open GithubUpdater in
/-- C4 (counterexample): with `need_refresh` already cleared (as after an
earlier `update_if_needed`), `force_update` succeeds even though the
release-metadata endpoint is unreachable — so it did not resolve the latest
release on this invocation, contradicting "every invocation ... performs
the release-metadata network read". -/
theorem force_update_skips_resolution_cex :
    (force_update envAssetOk sBase fs0).1 =
      .ok { previous_version := none, new_version := "2.0",
            has_been_updated := true, forced_update := true } ∧
    (fetch_last_release envAssetOk sBase).1 =
      .error (.ReqwestError
        "error sending request for url (https://api.github.com/repos/own/repo/releases/latest)") := by
  decide

open GithubUpdater in
/-- C5 (counterexample): the release's only asset is named `readme.md`,
which does not contain the substituted pattern `tool-1.0`, so the spec-side
selection-by-name finds no matching asset; the code nevertheless selects it
because its browser download URL contains the pattern — selection is by
URL, not by asset name. -/
theorem asset_selected_despite_name_mismatch_cex :
    fetch_last_release envC5 sC5 =
      (.ok (),
        { sC5 with app_version := some "1.0", release_url := some "api-1" }) ∧
    relC5.assets = wireC5.map AssetJson.toAsset ∧
    wireC5.map (fun a => a.name) = ["readme.md"] ∧
    spec_select_asset_by_name wireC5
      (strReplace (strReplace (strReplace "{app_name}-{app_version}"
        "{app_version}" "1.0") "{app_name}" "tool") "{rust_target}" "x86_64-linux") =
      none := by
  decide

open GithubUpdaterError in
open GithubUpdater in
/-- C6 (counterexample): two runs that differ only in whether the server
supplied a (matching) digest produce bit-identical results — the returned
`DownloadInfos` has no `checksum_verified` field, so the weaker
length-only verification mode is not observable to the caller. -/
theorem verification_mode_not_observable_cex :
    force_update envWithMd5 sBase fs0 = force_update envAssetOk sBase fs0 ∧
    (envWithMd5.asset_resp.map (fun r => r.content_md5)) =
      some (some (md5_model "abc")) ∧
    (envAssetOk.asset_resp.map (fun r => r.content_md5)) = some none ∧
    (force_update envWithMd5 sBase fs0).1 =
      .ok { previous_version := none, new_version := "2.0",
            has_been_updated := true, forced_update := true } := by
  decide

open GithubUpdater in
/-- C8 (counterexample): with the erase-previous-file policy disabled and a
prior artifact installed, a successful update leaves the NEW artifact at
the staging path `d/new_tool` and the OLD artifact at the primary path
`d/tool` — the new artifact is not renamed into the primary target path,
contradicting the claim. -/
theorem disabled_erase_leaves_new_file_at_staging_cex :
    (force_update envNew4 sC8 fsPrev).1 =
      .ok { previous_version := some "1.0", new_version := "2.0",
            has_been_updated := true, forced_update := true } ∧
    (force_update envNew4 sC8 fsPrev).2.2.lookup "d/tool" = some ⟨"OLD", true⟩ ∧
    (force_update envNew4 sC8 fsPrev).2.2.lookup "d/new_tool" = some ⟨"NEW!", true⟩ ∧
    (force_update envNew4 sC8 fsPrev).2.2.lookup "d/binary-version-tool.txt" =
      some ⟨"2.0", true⟩ ∧
    ¬ (force_update envNew4 sC8 fsPrev).2.2.lookup "d/tool" = some ⟨"NEW!", true⟩ := by
  decide

/-! ### Witnesses -/

open GithubUpdater in
/-- C1 witness: a truncation-style size mismatch (3 declared, 4 received)
against an installed artifact. -/
theorem force_update_verification_failure_cleans_and_preserves_witness :
    ((force_update envShort sBase fsPrev).1 =
        .error (.FetchError "File corrupted: Incorrect file size detected.") ∨
      (force_update envShort sBase fsPrev).1 =
        .error (.FetchError "File corrupted: MD5 checksum does not match.")) ∧
    (force_update envShort sBase fsPrev).2.2.lookup "d/new_tool" = none ∧
    (force_update envShort sBase fsPrev).2.2.lookup "d/tool" = fsPrev.lookup "d/tool" ∧
    (force_update envShort sBase fsPrev).2.2.lookup "d/binary-version-tool.txt" =
      fsPrev.lookup "d/binary-version-tool.txt" := by
  obtain ⟨h1, h2, h3, -⟩ :=
    force_update_verification_failure_cleans_and_preserves envShort sBase sBase fsPrev
      "tool" "d" "u" "2.0" "3" "tool" "d/tool" "d/new_tool" (some "1.0") 3 respShort
      rfl rfl rfl rfl rfl rfl rfl (by decide) rfl rfl rfl (by decide) (by decide) (by decide)
      (by decide) (Or.inr (by decide))
  exact ⟨h1, h2, h3 "d/tool" (by decide), h3 "d/binary-version-tool.txt" (by decide)⟩

open GithubUpdater in
/-- C2 witness: equal versions with both files present short-circuit to the
not-updated outcome with no disk write. -/
theorem update_decision_is_version_only_witness :
    check_if_update_is_needed { s1C2 with need_refresh := false } fsPrev = .ok false ∧
    update_if_needed envC2 sBase fsPrev =
      (.ok { previous_version := some "1.0", new_version := "1.0",
             has_been_updated := false, forced_update := false },
        { s1C2 with need_refresh := false }, fsPrev) := by
  obtain ⟨hiff, himp⟩ :=
    update_decision_is_version_only envC2 sBase s1C2 fsPrev "d" "tool" "1.0" "1.0"
      rfl (by decide) rfl rfl rfl (by decide) (by decide) (by decide)
  exact ⟨hiff.mpr (by decide), himp (by decide)⟩

open GithubUpdater in
/-- C3 witness: a transport failure during resolution, a version-file read
failure during the up-to-date check, and the needed-update branch, each
instantiated concretely. -/
theorem update_pipeline_failures_are_terminal_witness :
    update_if_needed envAssetOk sBase fs0 =
      (.error (.ReqwestError
        "error sending request for url (https://api.github.com/repos/own/repo/releases/latest)"),
        sBase, fs0) ∧
    (update_if_needed envFull sBase fsBadVf).1 =
      .error (.IoError "stream did not contain valid UTF-8") ∧
    update_if_needed envFull sBase fs0 =
      force_update envFull { s1W with need_refresh := false, forced_update := false } fs0 := by
  refine ⟨?_, ?_, ?_⟩
  · exact (update_pipeline_failures_are_terminal envAssetOk sBase fs0).1 _ sBase rfl (by decide)
  · exact (update_pipeline_failures_are_terminal envFull sBase fsBadVf).2.1
      (.IoError "stream did not contain valid UTF-8") s1W "d" "tool"
      rfl (by decide) rfl rfl (by decide)
  · exact (update_pipeline_failures_are_terminal envFull sBase fs0).2.2 s1W
      rfl (by decide) (by decide)

open GithubUpdater in
/-- C4 witness: with `need_refresh` cleared the outcome ignores the
metadata endpoint entirely; with it set, a transport failure during
resolution aborts the call. -/
theorem force_update_resolves_only_when_need_refresh_witness :
    force_update envAssetOk sBase fs0 = force_update envFull sBase fs0 ∧
    force_update envAssetOk sNR fs0 =
      (.error (.ReqwestError
        "error sending request for url (https://api.github.com/repos/own/repo/releases/latest)"),
        sNR, fs0) := by
  refine ⟨?_, ?_⟩
  · exact (force_update_resolves_only_when_need_refresh envAssetOk envFull sBase fs0).1
      rfl rfl rfl
  · exact (force_update_resolves_only_when_need_refresh envAssetOk envFull sNR fs0).2
      _ sNR rfl rfl (by decide)

open GithubUpdater in
/-- C5 witness: a release with no matching URL yields the no-match fetch
error; a release whose second asset matches (the first does not) selects
exactly that second asset's API URL. -/
theorem fetch_selects_first_matching_download_url_witness :
    fetch_last_release envC5A sC5 =
      (.error (.FetchError "No URL matching the pattern entered was found."),
        { sC5 with app_version := some "1.0" }) ∧
    fetch_last_release envC5W sC5 =
      (.ok (),
        { sC5 with
            app_version := some "1.0"
            release_url := some "api-1" }) := by
  refine ⟨?_, ?_⟩
  · exact (fetch_selects_first_matching_download_url envC5A sC5 relC5A metaRespOk
      ("own", "repo") "{app_name}-{app_version}" "tool" "x86_64-linux" "tool-1.0"
      rfl rfl rfl rfl rfl rfl rfl rfl rfl (by decide)).1 (by decide)
  · exact (fetch_selects_first_matching_download_url envC5W sC5 relC5W metaRespOk
      ("own", "repo") "{app_name}-{app_version}" "tool" "x86_64-linux" "tool-1.0"
      rfl rfl rfl rfl rfl rfl rfl rfl rfl (by decide)).2 1 (by decide) (by decide)
      (fun j hj hji => by
        cases j with
        | zero => exact (by decide :
            strContains (relC5W.assets.get ⟨0, Nat.succ_pos 1⟩).browser_download_url
              "tool-1.0" = false)
        | succ k => omega)

open GithubUpdater in
/-- C6 witness: a digest-less download succeeds exactly on matching length,
fails with the size-mismatch error on a wrong declared length, and its
outcome does not depend on the digest function. -/
theorem no_digest_means_length_only_verification_witness :
    (force_update envAssetOk sBase fs0).1 =
      .ok { previous_version := none, new_version := "2.0",
            has_been_updated := true, forced_update := true } ∧
    (force_update envBadLength sBase fs0).1 =
      .error (.FetchError "File corrupted: Incorrect file size detected.") ∧
    force_update envAltHash sBase fs0 = force_update envAssetOk sBase fs0 := by
  refine ⟨?_, ?_, ?_⟩
  · exact (no_digest_means_length_only_verification envAssetOk sBase sBase fs0
      "tool" "d" "u" "2.0" "3" none 3 respOk3
      rfl rfl rfl rfl rfl rfl rfl (by decide) rfl rfl rfl (by decide) rfl).1 (by decide)
  · exact (no_digest_means_length_only_verification envBadLength sBase sBase fs0
      "tool" "d" "u" "2.0" "9" none 9 respBadLength
      rfl rfl rfl rfl rfl rfl rfl (by decide) rfl rfl rfl (by decide) rfl).2.1 (by decide)
  · exact (no_digest_means_length_only_verification envAssetOk sBase sBase fs0
      "tool" "d" "u" "2.0" "3" none 3 respOk3
      rfl rfl rfl rfl rfl rfl rfl (by decide) rfl rfl rfl (by decide) rfl).2.2
      envAltHash rfl rfl rfl

open GithubUpdater in
/-- C7 witness: a response without `content-length` aborts with the
dedicated fetch error and writes nothing. -/
theorem force_update_requires_content_length_witness :
    (force_update envNoLength sBase fs0).1 =
      .error (.FetchError "The content-length header is absent.") ∧
    ((force_update envNoLength sBase fs0).2.2.lookup "d/tool" = fs0.lookup "d/tool" ∨
      (force_update envNoLength sBase fs0).2.2.lookup "d/tool" = none) := by
  obtain ⟨h1, h2⟩ :=
    force_update_requires_content_length envNoLength sBase sBase fs0
      "tool" "d" "u" "2.0" none respNoLength
      rfl rfl rfl rfl rfl rfl rfl (by decide) rfl rfl rfl
  exact ⟨h1, h2 "d/tool"⟩

open GithubUpdater in
/-- C8 witness: erase disabled, prior artifact present, 4-byte verified
download. -/
theorem disabled_erase_preserves_previous_and_stages_new_witness :
    (force_update envNew4 sC8 fsPrev).1 =
      .ok { previous_version := some "1.0", new_version := "2.0",
            has_been_updated := true, forced_update := true } ∧
    (force_update envNew4 sC8 fsPrev).2.2.lookup (pathJoin "d" (sC8.generate_file_name "tool")) =
      fsPrev.lookup (pathJoin "d" (sC8.generate_file_name "tool")) ∧
    (force_update envNew4 sC8 fsPrev).2.2.lookup
        (pathJoin "d" ("new_" ++ sC8.generate_file_name "tool")) = some ⟨"NEW!", true⟩ ∧
    (force_update envNew4 sC8 fsPrev).2.2.lookup
        (pathJoin "d" ("binary-version-" ++ "tool" ++ ".txt")) = some ⟨"2.0", true⟩ := by
  exact disabled_erase_preserves_previous_and_stages_new envNew4 sC8 sC8 fsPrev
    "tool" "d" "u" "2.0" "4" (some "1.0") 4 respNew4
    rfl rfl rfl rfl rfl rfl rfl (by decide) rfl rfl rfl (by decide) rfl (by decide)
    (Or.inl rfl) (by decide)

open GithubUpdater in
/-- C9 witness: fresh install into an empty filesystem. -/
theorem fresh_install_writes_directly_to_target_witness :
    (force_update envAssetOk sBase fs0).1 =
      .ok { previous_version := none, new_version := "2.0",
            has_been_updated := true, forced_update := true } ∧
    (force_update envAssetOk sBase fs0).2.2.lookup
        (pathJoin "d" (sBase.generate_file_name "tool")) = some ⟨"abc", true⟩ ∧
    (force_update envAssetOk sBase fs0).2.2.lookup
        (pathJoin "d" ("binary-version-" ++ "tool" ++ ".txt")) = some ⟨"2.0", true⟩ ∧
    (force_update envAssetOk sBase fs0).2.2.lookup
        (pathJoin "d" ("new_" ++ sBase.generate_file_name "tool")) =
      fs0.lookup (pathJoin "d" ("new_" ++ sBase.generate_file_name "tool")) := by
  exact fresh_install_writes_directly_to_target envAssetOk sBase sBase fs0
    "tool" "d" "u" "2.0" "3" 3 respOk3
    rfl rfl rfl rfl rfl rfl rfl rfl rfl rfl (by decide) (by decide) (by decide)
    (Or.inl rfl) (by decide)

open GithubUpdater in
/-- C10 witness: the sidecar records exactly the release version but the
artifact file is absent, so the full download sequence runs anyway. -/
theorem missing_state_forces_full_update_witness :
    check_if_update_is_needed { s1W with need_refresh := false } fsOnlyVf = .ok true ∧
    update_if_needed envFull sBase fsOnlyVf =
      force_update envFull { s1W with need_refresh := false, forced_update := false }
        fsOnlyVf := by
  exact missing_state_forces_full_update envFull sBase s1W fsOnlyVf "d" "tool"
    rfl (by decide) rfl rfl (Or.inr (by decide))

end GhUpdater
